import Mathlib

/-!
# Verification of the barKoder node SDK binding

A shallow embedding, in Lean 4, of the two source files of the
`barkoder-node-sdk` repository:

* `src/SpecificConfigs.hpp` — the per-symbology configuration model
  (the `BarcodeType` and `DecoderType` enumerations, the `SpecificConfig`
  base class with its `SetLengthRange` validator, and the per-symbology
  configuration classes with their default field values);
* `src/barkoder_node.cpp` — the N-API binding layer (initialize,
  setEnabledDecoders, setDecodingSpeed, setRegionOfInterest, decodeImage)
  together with the cJSON marshaling of decode results.

C++ `int` values are modelled as `Int` with explicit wrapping (`% 2 ^ 32`)
where 32-bit overflow matters; `size_t` conversions are modelled as
reduction modulo `2 ^ 64`.  Exceptions (`std::invalid_argument`, and the
catch-all `catch (const std::exception&)` in the binding) are modelled with
`Except String`.  The external barKoder engine (`Barkoder.hpp`,
`Config.hpp`, the licensing machinery) is not part of the repository
sources; where a claim depends on its behaviour the corresponding
definition is modelled from the specification and says so in its doc
comment.  Float-valued region-of-interest coordinates are carried as `Rat`:
they are only stored, never computed with, so the carrier does not matter.
-/

namespace Barkoder

/-- C++ `enum class DecodingSpeed { Fast = 0, Normal, Slow, Rigorous }`
(`SpecificConfigs.hpp`, lines 85–91). -/
inductive DecodingSpeed where
  | Fast
  | Normal
  | Slow
  | Rigorous
deriving DecidableEq, Repr

/-- The underlying integer value of each `DecodingSpeed` enumerator. -/
def DecodingSpeed.toInt : DecodingSpeed → Int
  | .Fast => 0
  | .Normal => 1
  | .Slow => 2
  | .Rigorous => 3

/-- C++ `enum class BarcodeType` (`SpecificConfigs.hpp`, lines 101–145):
every label a decode result can carry, including the ID-document
sub-facets `IDMRZ`, `IDPicture`, `IDSignature`. -/
inductive BarcodeType where
  | Aztec
  | AztecCompact
  | QR
  | QRMicro
  | Code128
  | Code93
  | Code39
  | Codabar
  | Code11
  | Msi
  | UpcA
  | UpcE
  | UpcE1
  | Ean13
  | Ean8
  | PDF417
  | PDF417Micro
  | Datamatrix
  | Code25
  | Interleaved25
  | ITF14
  | IATA25
  | Matrix25
  | Datalogic25
  | COOP25
  | Code32
  | Telepen
  | Dotcode
  | IDDocument
  | IDMRZ
  | IDPicture
  | IDSignature
  | Databar14
  | DatabarLimited
  | DatabarExpanded
  | PostalIMB
  | Postnet
  | Planet
  | AustralianPost
  | RoyalMail
  | KIX
  | JapanesePost
  | MaxiCode
deriving DecidableEq, Repr

/-- C++ `enum class DecoderType` (`SpecificConfigs.hpp`, lines 147–188):
the independently enable/disable-able decode capabilities.  Note that it
has no counterpart of `IDMRZ`, `IDPicture`, `IDSignature`. -/
inductive DecoderType where
  | Aztec
  | AztecCompact
  | QR
  | QRMicro
  | Code128
  | Code93
  | Code39
  | Codabar
  | Code11
  | Msi
  | UpcA
  | UpcE
  | UpcE1
  | Ean13
  | Ean8
  | PDF417
  | PDF417Micro
  | Datamatrix
  | Code25
  | Interleaved25
  | ITF14
  | IATA25
  | Matrix25
  | Datalogic25
  | COOP25
  | Code32
  | Telepen
  | Dotcode
  | IDDocument
  | Databar14
  | DatabarLimited
  | DatabarExpanded
  | PostalIMB
  | Postnet
  | Planet
  | AustralianPost
  | RoyalMail
  | KIX
  | JapanesePost
  | MaxiCode
deriving DecidableEq, Repr

/-- The ordinal of each `DecoderType` enumerator (declaration order,
starting at 0, as in the C++ scoped enumeration). -/
def DecoderType.toInt : DecoderType → Int
  | .Aztec => 0
  | .AztecCompact => 1
  | .QR => 2
  | .QRMicro => 3
  | .Code128 => 4
  | .Code93 => 5
  | .Code39 => 6
  | .Codabar => 7
  | .Code11 => 8
  | .Msi => 9
  | .UpcA => 10
  | .UpcE => 11
  | .UpcE1 => 12
  | .Ean13 => 13
  | .Ean8 => 14
  | .PDF417 => 15
  | .PDF417Micro => 16
  | .Datamatrix => 17
  | .Code25 => 18
  | .Interleaved25 => 19
  | .ITF14 => 20
  | .IATA25 => 21
  | .Matrix25 => 22
  | .Datalogic25 => 23
  | .COOP25 => 24
  | .Code32 => 25
  | .Telepen => 26
  | .Dotcode => 27
  | .IDDocument => 28
  | .Databar14 => 29
  | .DatabarLimited => 30
  | .DatabarExpanded => 31
  | .PostalIMB => 32
  | .Postnet => 33
  | .Planet => 34
  | .AustralianPost => 35
  | .RoyalMail => 36
  | .KIX => 37
  | .JapanesePost => 38
  | .MaxiCode => 39

/-- Partial inverse of `DecoderType.toInt`: the `DecoderType` denoted by an
integer code, when the code is one of the 40 declared ordinals. -/
def DecoderType.ofInt : Int → Option DecoderType
  | 0 => some .Aztec
  | 1 => some .AztecCompact
  | 2 => some .QR
  | 3 => some .QRMicro
  | 4 => some .Code128
  | 5 => some .Code93
  | 6 => some .Code39
  | 7 => some .Codabar
  | 8 => some .Code11
  | 9 => some .Msi
  | 10 => some .UpcA
  | 11 => some .UpcE
  | 12 => some .UpcE1
  | 13 => some .Ean13
  | 14 => some .Ean8
  | 15 => some .PDF417
  | 16 => some .PDF417Micro
  | 17 => some .Datamatrix
  | 18 => some .Code25
  | 19 => some .Interleaved25
  | 20 => some .ITF14
  | 21 => some .IATA25
  | 22 => some .Matrix25
  | 23 => some .Datalogic25
  | 24 => some .COOP25
  | 25 => some .Code32
  | 26 => some .Telepen
  | 27 => some .Dotcode
  | 28 => some .IDDocument
  | 29 => some .Databar14
  | 30 => some .DatabarLimited
  | 31 => some .DatabarExpanded
  | 32 => some .PostalIMB
  | 33 => some .Postnet
  | 34 => some .Planet
  | 35 => some .AustralianPost
  | 36 => some .RoyalMail
  | 37 => some .KIX
  | 38 => some .JapanesePost
  | 39 => some .MaxiCode
  | _ => none

/-- The `BarcodeType` with the same symbology meaning as a given
`DecoderType`: each `DecoderType` enumerator is mapped to the
`BarcodeType` enumerator of the same name. -/
def decoderToBarcode : DecoderType → BarcodeType
  | .Aztec => .Aztec
  | .AztecCompact => .AztecCompact
  | .QR => .QR
  | .QRMicro => .QRMicro
  | .Code128 => .Code128
  | .Code93 => .Code93
  | .Code39 => .Code39
  | .Codabar => .Codabar
  | .Code11 => .Code11
  | .Msi => .Msi
  | .UpcA => .UpcA
  | .UpcE => .UpcE
  | .UpcE1 => .UpcE1
  | .Ean13 => .Ean13
  | .Ean8 => .Ean8
  | .PDF417 => .PDF417
  | .PDF417Micro => .PDF417Micro
  | .Datamatrix => .Datamatrix
  | .Code25 => .Code25
  | .Interleaved25 => .Interleaved25
  | .ITF14 => .ITF14
  | .IATA25 => .IATA25
  | .Matrix25 => .Matrix25
  | .Datalogic25 => .Datalogic25
  | .COOP25 => .COOP25
  | .Code32 => .Code32
  | .Telepen => .Telepen
  | .Dotcode => .Dotcode
  | .IDDocument => .IDDocument
  | .Databar14 => .Databar14
  | .DatabarLimited => .DatabarLimited
  | .DatabarExpanded => .DatabarExpanded
  | .PostalIMB => .PostalIMB
  | .Postnet => .Postnet
  | .Planet => .Planet
  | .AustralianPost => .AustralianPost
  | .RoyalMail => .RoyalMail
  | .KIX => .KIX
  | .JapanesePost => .JapanesePost
  | .MaxiCode => .MaxiCode

/-- Partial inverse of `decoderToBarcode`: the `DecoderType` (if any) with
the same symbology meaning as a given `BarcodeType`.  `IDMRZ`, `IDPicture`
and `IDSignature` have none. -/
def barcodeToDecoder : BarcodeType → Option DecoderType
  | .Aztec => some .Aztec
  | .AztecCompact => some .AztecCompact
  | .QR => some .QR
  | .QRMicro => some .QRMicro
  | .Code128 => some .Code128
  | .Code93 => some .Code93
  | .Code39 => some .Code39
  | .Codabar => some .Codabar
  | .Code11 => some .Code11
  | .Msi => some .Msi
  | .UpcA => some .UpcA
  | .UpcE => some .UpcE
  | .UpcE1 => some .UpcE1
  | .Ean13 => some .Ean13
  | .Ean8 => some .Ean8
  | .PDF417 => some .PDF417
  | .PDF417Micro => some .PDF417Micro
  | .Datamatrix => some .Datamatrix
  | .Code25 => some .Code25
  | .Interleaved25 => some .Interleaved25
  | .ITF14 => some .ITF14
  | .IATA25 => some .IATA25
  | .Matrix25 => some .Matrix25
  | .Datalogic25 => some .Datalogic25
  | .COOP25 => some .COOP25
  | .Code32 => some .Code32
  | .Telepen => some .Telepen
  | .Dotcode => some .Dotcode
  | .IDDocument => some .IDDocument
  | .IDMRZ => none
  | .IDPicture => none
  | .IDSignature => none
  | .Databar14 => some .Databar14
  | .DatabarLimited => some .DatabarLimited
  | .DatabarExpanded => some .DatabarExpanded
  | .PostalIMB => some .PostalIMB
  | .Postnet => some .Postnet
  | .Planet => some .Planet
  | .AustralianPost => some .AustralianPost
  | .RoyalMail => some .RoyalMail
  | .KIX => some .KIX
  | .JapanesePost => some .JapanesePost
  | .MaxiCode => some .MaxiCode

/-- The `SpecificConfig` base class (`SpecificConfigs.hpp`, lines 199–241):
`enabled`, `expectedCount`, `minimumLength`, `maximumLength`, the immutable
display name `configTypeName` and the bound `decoderType`. -/
structure SpecificConfig where
  enabled : Bool
  expectedCount : Int
  minimumLength : Int
  maximumLength : Int
  configTypeName : String
  decoderType : DecoderType
deriving DecidableEq, Repr

/-- Modelled from the spec: the body of the base constructor
`SpecificConfig(DecoderType)` lives in the SDK binary, not under `src/`
(only its declaration is in `SpecificConfigs.hpp`).  Per the spec,
construction "initializes `enabled=false`, `expectedCount=0`,
symbology-appropriate length defaults" with zero meaning unconstrained,
and binds the immutable `decoderType`; the derived constructors visible in
`src/` then overwrite `configTypeName` and, for MSI and Codabar, the
minimum length. -/
def SpecificConfig.base (d : DecoderType) : SpecificConfig :=
  { enabled := false
    expectedCount := 0
    minimumLength := 0
    maximumLength := 0
    configTypeName := ""
    decoderType := d }

/-- C++ `SpecificConfig::SetLengthRange` (`SpecificConfigs.hpp`, lines
212–227), with `throw std::invalid_argument(msg)` modelled as
`Except.error msg`.  On success the bounds are stored and `this` is
returned updated; on failure the exception propagates and the
configuration is untouched. -/
def SpecificConfig.SetLengthRange (cfg : SpecificConfig)
    (minimumLength maximumLength : Int) : Except String SpecificConfig :=
  if minimumLength ≥ 0 ∧ maximumLength ≥ 0 then
    if minimumLength > 0 ∧ maximumLength > 0 ∧ maximumLength < minimumLength then
      -- the thrown message, with the contraction of the original text spelled out
      Except.error "Maximum length cannot be smaller than minimum"
    else
      Except.ok { cfg with minimumLength := minimumLength, maximumLength := maximumLength }
  else
    Except.error "Length must be positive number"

/-- C++ `SpecificConfig::ChecksumType { Disabled, Enabled }`
(`SpecificConfigs.hpp`, lines 203–206).  Also the checksum set of the
Code-25 family (`Code25Config::ChecksumType` is this inherited type) and
of `IDDocumentConfig::masterChecksumType`. -/
inductive BaseChecksumType where
  | Disabled
  | Enabled
deriving DecidableEq, Repr

/-- C++ `Code11Config::ChecksumType { Disabled, Single, Double }`
(`SpecificConfigs.hpp`, lines 249–253). -/
inductive Code11ChecksumType where
  | Disabled
  | Single
  | Double
deriving DecidableEq, Repr

/-- C++ `Code39Config::ChecksumType { Disabled, Enabled }`
(`SpecificConfigs.hpp`, lines 269–272). -/
inductive Code39ChecksumType where
  | Disabled
  | Enabled
deriving DecidableEq, Repr

/-- C++ `MsiConfig::ChecksumType` (`SpecificConfigs.hpp`, lines 400–408):
seven modulus variants. -/
inductive MsiChecksumType where
  | Disabled
  | Mod10
  | Mod11
  | Mod1010
  | Mod1110
  | Mod11IBM
  | Mod1110IBM
deriving DecidableEq, Repr

/-- C++ `Code11Config` (`SpecificConfigs.hpp`, lines 247–261). -/
structure Code11Config extends SpecificConfig where
  checksumType : Code11ChecksumType
deriving DecidableEq, Repr

/-- C++ `Code11Config(DecoderType)` constructor: base construction, then
`configTypeName = CODE_11_TYPENAME`; `checksumType` defaults to
`Disabled` by its member initializer. -/
def mkCode11Config (d : DecoderType) : Code11Config :=
  { SpecificConfig.base d with configTypeName := "Code 11", checksumType := .Disabled }

/-- C++ `Code39Config` (`SpecificConfigs.hpp`, lines 267–280). -/
structure Code39Config extends SpecificConfig where
  checksumType : Code39ChecksumType
deriving DecidableEq, Repr

/-- C++ `Code39Config(DecoderType)` constructor. -/
def mkCode39Config (d : DecoderType) : Code39Config :=
  { SpecificConfig.base d with configTypeName := "Code 39", checksumType := .Disabled }

/-- C++ `TelepenConfig(DecoderType)` constructor (`SpecificConfigs.hpp`, lines
285–291); the class adds no fields beyond the base. -/
def mkTelepenConfig (d : DecoderType) : SpecificConfig :=
  { SpecificConfig.base d with configTypeName := "Telepen" }

/-- C++ `PostalIMBConfig(DecoderType)` constructor (lines 296–302). -/
def mkPostalIMBConfig (d : DecoderType) : SpecificConfig :=
  { SpecificConfig.base d with configTypeName := "Intelligent Mail" }

/-- C++ `PostnetConfig(DecoderType)` constructor (lines 307–313). -/
def mkPostnetConfig (d : DecoderType) : SpecificConfig :=
  { SpecificConfig.base d with configTypeName := "Postnet" }

/-- C++ `PlanetConfig(DecoderType)` constructor (lines 318–324). -/
def mkPlanetConfig (d : DecoderType) : SpecificConfig :=
  { SpecificConfig.base d with configTypeName := "Planet" }

/-- C++ `AustralianPostConfig(DecoderType)` constructor (lines 329–335). -/
def mkAustralianPostConfig (d : DecoderType) : SpecificConfig :=
  { SpecificConfig.base d with configTypeName := "Australian Post" }

/-- C++ `RoyalMailConfig(DecoderType)` constructor (lines 340–346). -/
def mkRoyalMailConfig (d : DecoderType) : SpecificConfig :=
  { SpecificConfig.base d with configTypeName := "Royal Mail" }

/-- C++ `JapanesePostConfig(DecoderType)` constructor (lines 351–357). -/
def mkJapanesePostConfig (d : DecoderType) : SpecificConfig :=
  { SpecificConfig.base d with configTypeName := "Japanese Post" }

/-- C++ `KIXConfig(DecoderType)` constructor (lines 362–368). -/
def mkKIXConfig (d : DecoderType) : SpecificConfig :=
  { SpecificConfig.base d with configTypeName := "PostNL KIX" }

/-- C++ `DotcodeConfig(DecoderType)` constructor (lines 373–379). -/
def mkDotcodeConfig (d : DecoderType) : SpecificConfig :=
  { SpecificConfig.base d with configTypeName := "Dotcode" }

/-- C++ `Code32Config(DecoderType)` constructor (lines 384–391). -/
def mkCode32Config (d : DecoderType) : SpecificConfig :=
  { SpecificConfig.base d with configTypeName := "Code 32" }

/-- C++ `MsiConfig` (`SpecificConfigs.hpp`, lines 398–417). -/
structure MsiConfig extends SpecificConfig where
  checksumType : MsiChecksumType
deriving DecidableEq, Repr

/-- C++ `MsiConfig(DecoderType)` constructor: `configTypeName = MSI_TYPENAME`
and `minimumLength = 5`; `checksumType` defaults to `Mod10` by its member
initializer (line 410). -/
def mkMsiConfig (d : DecoderType) : MsiConfig :=
  { SpecificConfig.base d with
      configTypeName := "MSI", minimumLength := 5, checksumType := .Mod10 }

/-- C++ `Code25Config` (`SpecificConfigs.hpp`, lines 422–432); its
`checksumType` is the inherited `SpecificConfig::ChecksumType`. -/
structure Code25Config extends SpecificConfig where
  checksumType : BaseChecksumType
deriving DecidableEq, Repr

/-- C++ `Code25Config(DecoderType)` constructor. -/
def mkCode25Config (d : DecoderType) : Code25Config :=
  { SpecificConfig.base d with configTypeName := "Code 25", checksumType := .Disabled }

/-- C++ `IATA25Config` (lines 437–446), with `Code25Config::ChecksumType`. -/
structure IATA25Config extends SpecificConfig where
  checksumType : BaseChecksumType
deriving DecidableEq, Repr

/-- C++ `IATA25Config(DecoderType)` constructor. -/
def mkIATA25Config (d : DecoderType) : IATA25Config :=
  { SpecificConfig.base d with configTypeName := "IATA 25", checksumType := .Disabled }

/-- C++ `Matrix25Config` (lines 451–460). -/
structure Matrix25Config extends SpecificConfig where
  checksumType : BaseChecksumType
deriving DecidableEq, Repr

/-- C++ `Matrix25Config(DecoderType)` constructor. -/
def mkMatrix25Config (d : DecoderType) : Matrix25Config :=
  { SpecificConfig.base d with configTypeName := "Matrix 25", checksumType := .Disabled }

/-- C++ `Datalogic25Config` (lines 465–474). -/
structure Datalogic25Config extends SpecificConfig where
  checksumType : BaseChecksumType
deriving DecidableEq, Repr

/-- C++ `Datalogic25Config(DecoderType)` constructor. -/
def mkDatalogic25Config (d : DecoderType) : Datalogic25Config :=
  { SpecificConfig.base d with configTypeName := "Datalogic 25", checksumType := .Disabled }

/-- C++ `COOP25Config` (lines 479–488). -/
structure COOP25Config extends SpecificConfig where
  checksumType : BaseChecksumType
deriving DecidableEq, Repr

/-- C++ `COOP25Config(DecoderType)` constructor. -/
def mkCOOP25Config (d : DecoderType) : COOP25Config :=
  { SpecificConfig.base d with configTypeName := "COOP 25", checksumType := .Disabled }

/-- C++ `Interleaved25Config` (lines 493–503). -/
structure Interleaved25Config extends SpecificConfig where
  checksumType : BaseChecksumType
deriving DecidableEq, Repr

/-- C++ `Interleaved25Config(DecoderType)` constructor. -/
def mkInterleaved25Config (d : DecoderType) : Interleaved25Config :=
  { SpecificConfig.base d with
      configTypeName := "Interleaved 2 of 5", checksumType := .Disabled }

/-- C++ `ITF14Config(DecoderType)` constructor (lines 508–515). -/
def mkITF14Config (d : DecoderType) : SpecificConfig :=
  { SpecificConfig.base d with configTypeName := "ITF 14" }

/-- C++ `AztecConfig(DecoderType)` constructor (lines 521–527). -/
def mkAztecConfig (d : DecoderType) : SpecificConfig :=
  { SpecificConfig.base d with configTypeName := "Aztec" }

/-- C++ `AztecCompactConfig(DecoderType)` constructor (lines 532–538). -/
def mkAztecCompactConfig (d : DecoderType) : SpecificConfig :=
  { SpecificConfig.base d with configTypeName := "Aztec Compact" }

/-- C++ `MaxiCodeConfig(DecoderType)` constructor (lines 543–549). -/
def mkMaxiCodeConfig (d : DecoderType) : SpecificConfig :=
  { SpecificConfig.base d with configTypeName := "MaxiCode" }

/-- C++ `DatamatrixConfig` (lines 554–561), with `int dpmMode = 0`. -/
structure DatamatrixConfig extends SpecificConfig where
  dpmMode : Int
deriving DecidableEq, Repr

/-- C++ `DatamatrixConfig(DecoderType)` constructor. -/
def mkDatamatrixConfig (d : DecoderType) : DatamatrixConfig :=
  { SpecificConfig.base d with configTypeName := "Data Matrix", dpmMode := 0 }

/-- C++ `QRConfig` (lines 566–575), with `int dpmMode = 0` and
`bool multiPartMerge = 0`. -/
structure QRConfig extends SpecificConfig where
  dpmMode : Int
  multiPartMerge : Bool
deriving DecidableEq, Repr

/-- C++ `QRConfig(DecoderType)` constructor. -/
def mkQRConfig (d : DecoderType) : QRConfig :=
  { SpecificConfig.base d with
      configTypeName := "QR", dpmMode := 0, multiPartMerge := false }

/-- C++ `QRMicroConfig` (lines 580–587). -/
structure QRMicroConfig extends SpecificConfig where
  dpmMode : Int
deriving DecidableEq, Repr

/-- C++ `QRMicroConfig(DecoderType)` constructor. -/
def mkQRMicroConfig (d : DecoderType) : QRMicroConfig :=
  { SpecificConfig.base d with configTypeName := "QR Micro", dpmMode := 0 }

/-- C++ `Code128Config(DecoderType)` constructor (lines 592–598). -/
def mkCode128Config (d : DecoderType) : SpecificConfig :=
  { SpecificConfig.base d with configTypeName := "Code 128" }

/-- C++ `Code93Config(DecoderType)` constructor (lines 603–609). -/
def mkCode93Config (d : DecoderType) : SpecificConfig :=
  { SpecificConfig.base d with configTypeName := "Code 93" }

/-- C++ `CodabarConfig(DecoderType)` constructor (lines 614–621):
`configTypeName = CODABAR_TYPENAME` and `minimumLength = 4`. -/
def mkCodabarConfig (d : DecoderType) : SpecificConfig :=
  { SpecificConfig.base d with configTypeName := "Codabar", minimumLength := 4 }

/-- C++ `UpcAConfig(DecoderType)` constructor (lines 626–632). -/
def mkUpcAConfig (d : DecoderType) : SpecificConfig :=
  { SpecificConfig.base d with configTypeName := "Upc-A" }

/-- C++ `UpcEConfig` (lines 637–644), with `bool expandToUPCA = false`. -/
structure UpcEConfig extends SpecificConfig where
  expandToUPCA : Bool
deriving DecidableEq, Repr

/-- C++ `UpcEConfig(DecoderType)` constructor. -/
def mkUpcEConfig (d : DecoderType) : UpcEConfig :=
  { SpecificConfig.base d with configTypeName := "Upc-E", expandToUPCA := false }

/-- C++ `UpcE1Config` (lines 649–656), with `bool expandToUPCA = false`. -/
structure UpcE1Config extends SpecificConfig where
  expandToUPCA : Bool
deriving DecidableEq, Repr

/-- C++ `UpcE1Config(DecoderType)` constructor. -/
def mkUpcE1Config (d : DecoderType) : UpcE1Config :=
  { SpecificConfig.base d with configTypeName := "Upc-E1", expandToUPCA := false }

/-- C++ `Ean13Config(DecoderType)` constructor (lines 661–667). -/
def mkEan13Config (d : DecoderType) : SpecificConfig :=
  { SpecificConfig.base d with configTypeName := "Ean-13" }

/-- C++ `Ean8Config(DecoderType)` constructor (lines 672–678). -/
def mkEan8Config (d : DecoderType) : SpecificConfig :=
  { SpecificConfig.base d with configTypeName := "Ean-8" }

/-- C++ `PDF417Config(DecoderType)` constructor (lines 683–689). -/
def mkPDF417Config (d : DecoderType) : SpecificConfig :=
  { SpecificConfig.base d with configTypeName := "PDF 417" }

/-- C++ `PDF417MicroConfig(DecoderType)` constructor (lines 694–700). -/
def mkPDF417MicroConfig (d : DecoderType) : SpecificConfig :=
  { SpecificConfig.base d with configTypeName := "PDF 417 Micro" }

/-- C++ `Databar14Config(DecoderType)` constructor (lines 705–711). -/
def mkDatabar14Config (d : DecoderType) : SpecificConfig :=
  { SpecificConfig.base d with configTypeName := "Databar 14" }

/-- C++ `DatabarLimitedConfig(DecoderType)` constructor (lines 716–722). -/
def mkDatabarLimitedConfig (d : DecoderType) : SpecificConfig :=
  { SpecificConfig.base d with configTypeName := "Databar Limited" }

/-- C++ `DatabarExpandedConfig(DecoderType)` constructor (lines 727–733). -/
def mkDatabarExpandedConfig (d : DecoderType) : SpecificConfig :=
  { SpecificConfig.base d with configTypeName := "Databar Expanded" }

/-- C++ `IDDocumentConfig` (lines 738–745), with
`ChecksumType masterChecksumType{ChecksumType::Disabled}` (the inherited
`SpecificConfig::ChecksumType`). -/
structure IDDocumentConfig extends SpecificConfig where
  masterChecksumType : BaseChecksumType
deriving DecidableEq, Repr

/-- C++ `IDDocumentConfig(DecoderType)` constructor. -/
def mkIDDocumentConfig (d : DecoderType) : IDDocumentConfig :=
  { SpecificConfig.base d with
      configTypeName := "ID Document", masterChecksumType := .Disabled }

/-- A decode result returned by the external engine (`BaseResult`):
symbology type name, decoded textual payload, and the open `extra` mapping
of auxiliary key/value string pairs.  The `extra` list carries the pairs
in the order the C++ `for (const auto& pair : results[i].extra)` loop
visits them. -/
structure BaseResult where
  barcodeTypeName : String
  textualData : String
  extra : List (String × String)
deriving DecidableEq, Repr

/-- The cJSON documents built by `DecodeImage` (`barkoder_node.cpp`, lines
208–274): numbers, strings, arrays and objects whose fields appear in
insertion order (`cJSON_Add...ToObject` appends). -/
inductive Json where
  | num (n : Int)
  | str (s : String)
  | arr (elems : List Json)
  | obj (fields : List (String × Json))

/-- The first value bound to `key` in a JSON object, if any. -/
def Json.getField (j : Json) (key : String) : Option Json :=
  match j with
  | .obj fields => fields.lookup key
  | _ => none

/-- The field names of a JSON object, in insertion order. -/
def Json.fieldKeys : Json → List String
  | .obj fields => fields.map Prod.fst
  | _ => []

/-- The per-result sub-document built inside the `resultsCount > 1` branch
of `DecodeImage` (`barkoder_node.cpp`, lines 253–260): `barcodeTypeName`,
`textualData`, then every auxiliary pair of `extra`. -/
def marshalSingle (r : BaseResult) : Json :=
  .obj (("barcodeTypeName", .str r.barcodeTypeName)
    :: ("textualData", .str r.textualData)
    :: r.extra.map (fun p => (p.1, Json.str p.2)))

/-- The result-to-JSON conversion of `DecodeImage` (`barkoder_node.cpp`,
lines 208–274): three shapes, chosen by `resultsCount`.

* zero results: `resultsCount = 0`, empty `barcodeTypeName`, empty
  `textualData` (lines 210–224);
* one result: a flat document with the result's fields and every `extra`
  pair promoted to top level (lines 225–244);
* more than one: `resultsCount = N` plus a `results` array of per-result
  sub-documents in sequence order (lines 245–274). -/
def marshalResults : List BaseResult → Json
  | [] =>
      .obj [("resultsCount", .num 0), ("barcodeTypeName", .str ""), ("textualData", .str "")]
  | [r] =>
      .obj (("resultsCount", .num 1)
        :: ("barcodeTypeName", .str r.barcodeTypeName)
        :: ("textualData", .str r.textualData)
        :: r.extra.map (fun p => (p.1, Json.str p.2)))
  | r₁ :: r₂ :: rest =>
      .obj [("resultsCount", .num (r₁ :: r₂ :: rest).length),
            ("results", .arr ((r₁ :: r₂ :: rest).map marshalSingle))]

/-- C++ `Rect` (`SpecificConfigs.hpp`, lines 66–83): the region-of-interest
rectangle.  The C++ fields are `float`; they are only stored, never
computed with, so they are carried as `Rat`. -/
structure Rect where
  left : Rat
  top : Rat
  width : Rat
  height : Rat
deriving DecidableEq, Repr

/-- The SDK `Config` object as the binding uses it: the decoding speed and
maximum-results cap written directly through the pointer
(`config->decodingSpeed`, `config->maximumResultsCount`), the per-decoder
enabled flags (one slot per `DecoderType`, spec §3), and the stored region
of interest.  `decodingSpeed` holds the raw integer value of the C++
`DecodingSpeed` field: `SetDecodingSpeed` stores
`static_cast<DecodingSpeed>(speed)` for an arbitrary `int`, which keeps
the underlying integer value unchanged. -/
structure Config where
  decodingSpeed : Int
  maximumResultsCount : Int
  enabledFlags : DecoderType → Bool
  roi : Rect

/-- The process-wide global options set by `Config::SetGlobalOption`
(`barkoder_node.cpp`, lines 59–60): thread cap and GPU toggle. -/
structure GlobalOptions where
  maximumThreads : Int
  useGPU : Int
deriving DecidableEq, Repr

/-- The state of the binding module: the global `Config *config = nullptr`
pointer (`barkoder_node.cpp`, line 15) and the process-wide options. -/
structure AddonState where
  config : Option Config
  globalOpts : GlobalOptions

/-- The module state at load time: the config pointer is null and the
global options hold whatever the SDK initialized them to (parameter `g`). -/
def initialState (g : GlobalOptions) : AddonState :=
  { config := none, globalOpts := g }

/-- The outcome of `Config::InitializeWithLicenseKey` (`ConfigResponse`),
an external SDK call: either `Result::Error` with a message, or a usable
`Config` with a message.  The licensing logic itself is out of scope; the
response is an oracle input to `Initialize`. -/
inductive InitResponse where
  | err (msg : String)
  | ok (cfg : Config) (msg : String)

/-- C++ `Initialize` (`barkoder_node.cpp`, lines 36–71), after the
argument-type guard: on an error response it returns `"ERROR: " + msg`
and leaves the module state alone; on success it stores the returned
config, sets the global options to thread cap 1 and GPU off, and
overwrites `decodingSpeed` to `Normal` (= 1) and `maximumResultsCount`
to 1 (lines 56–65). -/
def Initialize (st : AddonState) (resp : InitResponse) : String × AddonState :=
  match resp with
  | .err m => ("ERROR: " ++ m, st)
  | .ok cfg m =>
      ("SUCCESS: " ++ m,
       { config := some { cfg with
           decodingSpeed := DecodingSpeed.Normal.toInt, maximumResultsCount := 1 }
         globalOpts := { maximumThreads := 1, useGPU := 0 } })

/-- C++ `IsInitialized` (`barkoder_node.cpp`, lines 76–79):
`config != nullptr`. -/
def IsInitialized (st : AddonState) : Bool :=
  st.config.isSome

/-- Modelled from the spec: `Config::SetEnabledDecoders` is declared in
`Config.hpp`, which is not under `src/`; only its caller is.  Per the
spec (§4.2), it "replaces the enabled set — every DecoderType present in
the list is marked enabled, every DecoderType absent is marked disabled;
unknown/out-of-range values are rejected with a `ValidationError` and
must not partially apply."  The binding (`barkoder_node.cpp`, lines
100–106) builds the `std::vector<DecoderType>` by `static_cast`-ing each
integer with no range check, so the raw integer codes reach this call
unfiltered; the rejection is modelled as a thrown exception, which the
binding's `catch` turns into an `ERROR:` string. -/
def Config.setEnabledDecodersSdk (cfg : Config) (codes : List Int) :
    Except String Config :=
  if codes.all (fun c => (DecoderType.ofInt c).isSome) then
    Except.ok { cfg with
      enabledFlags := fun d => codes.any (fun c => DecoderType.ofInt c == some d) }
  else
    Except.error "Invalid decoder type"

/-- C++ `SetEnabledDecoders` (`barkoder_node.cpp`, lines 85–114), after the
argument-type guard, on an array whose elements are all numbers (a
non-number element would be silently skipped by the `element.IsNumber()`
test; the claims only concern integer lists).  Null config pointer gives
the not-initialized error; otherwise the codes are handed to the SDK and
an exception becomes an `ERROR:` string with the state untouched. -/
def SetEnabledDecoders (st : AddonState) (codes : List Int) :
    String × AddonState :=
  match st.config with
  | none => ("ERROR: SDK not initialized", st)
  | some cfg =>
      match cfg.setEnabledDecodersSdk codes with
      | .error e => ("ERROR: " ++ e, st)
      | .ok cfg2 =>
          ("SUCCESS: Enabled " ++ toString codes.length ++ " decoders",
           { st with config := some cfg2 })

/-- C++ `SetDecodingSpeed` (`barkoder_node.cpp`, lines 120–139), after the
argument-type guard: stores `static_cast<DecodingSpeed>(speed)` — the raw
integer, with no range validation — and reports success. -/
def SetDecodingSpeed (st : AddonState) (speed : Int) : String × AddonState :=
  match st.config with
  | none => ("ERROR: SDK not initialized", st)
  | some cfg =>
      ("SUCCESS: Decoding speed set to " ++ toString speed,
       { st with config := some { cfg with decodingSpeed := speed } })

/-- C++ `SetRegionOfInterest` (`barkoder_node.cpp`, lines 145–172), after the
argument-type guard.  `Config::SetRegionOfInterest` itself is in
`Config.hpp`, not under `src/`; modelled from the spec (§4.2) as storing
the four percentage values with no bound checking.  The success message's
float rendering (`std::to_string`) is abstracted to a fixed text. -/
def SetRegionOfInterest (st : AddonState) (l t w h : Rat) :
    String × AddonState :=
  match st.config with
  | none => ("ERROR: SDK not initialized", st)
  | some cfg =>
      ("SUCCESS: ROI set",
       { st with config := some { cfg with roi := ⟨l, t, w, h⟩ } })

/-- Two's-complement wrapping of an integer to 32 bits: the value of the
C++ `int` product `width * height` under the wrap-around behaviour the
compilers in use give it. -/
def wrap32 (n : Int) : Int :=
  (n + 2 ^ 31) % 2 ^ 32 - 2 ^ 31

/-- C++ `static_cast<size_t>` of a 32-bit `int` value on a 64-bit platform:
reduction modulo `2 ^ 64`, as a `Nat`. -/
def toSizeT (n : Int) : Nat :=
  (n % 2 ^ 64).toNat

/-- C++ `DecodeImage` (`barkoder_node.cpp`, lines 180–279), after the
argument-type guard.  `bufLen` is `buffer.Length()`; `width` and `height`
come from `Int32Value()`.  The guard at line 200 compares `bufLen` with
`static_cast<size_t>(width * height)`, the product being computed in
32-bit `int` arithmetic.  When the guard passes, the external engine
(`Barkoder::DecodeImageMemory`, out of scope) returns its result
sequence, supplied here as the oracle `engineResults`; the sequence is
then marshaled by `marshalResults`.  The state is never changed.  The two
error strings are the ones the binding returns verbatim. -/
def DecodeImage (st : AddonState) (bufLen : Nat) (width height : Int)
    (engineResults : List BaseResult) : Except String Json × AddonState :=
  match st.config with
  | none => (.error "ERROR: SDK not initialized", st)
  | some _ =>
      if bufLen < toSizeT (wrap32 (width * height)) then
        (.error "ERROR: Buffer too small for specified dimensions", st)
      else
        (.ok (marshalResults engineResults), st)

/-- An invocation of one of the exported binding functions, with the
external-engine responses carried as oracle data. -/
inductive Action where
  | initOp (resp : InitResponse)
  | setEnabledDecoders (codes : List Int)
  | setDecodingSpeed (speed : Int)
  | setRegionOfInterest (l t w h : Rat)
  | decodeImage (bufLen : Nat) (width height : Int) (engineResults : List BaseResult)

/-- Whether an action is an `initialize` call whose SDK response is
successful (the only way the global config pointer can become
non-null). -/
def Action.isSuccessfulInit : Action → Bool
  | .initOp (.ok _ _) => true
  | _ => false

/-- The state after executing one action (discarding the returned
string/document). -/
def stepState (st : AddonState) : Action → AddonState
  | .initOp resp => (Initialize st resp).2
  | .setEnabledDecoders codes => (SetEnabledDecoders st codes).2
  | .setDecodingSpeed speed => (SetDecodingSpeed st speed).2
  | .setRegionOfInterest l t w h => (SetRegionOfInterest st l t w h).2
  | .decodeImage bufLen width height rs => (DecodeImage st bufLen width height rs).2

/-- The state after executing a sequence of actions in order. -/
def runActions (st : AddonState) : List Action → AddonState
  | [] => st
  | a :: rest => runActions (stepState st a) rest

/-- A concrete SDK config, used to instantiate theorems at concrete
inputs: speed `Normal`, cap 1, nothing enabled, full-image ROI. -/
def sampleConfig : Config :=
  { decodingSpeed := 1
    maximumResultsCount := 1
    enabledFlags := fun _ => false
    roi := ⟨0, 0, 100, 100⟩ }

/-- A concrete module state whose config pointer is non-null. -/
def sampleInitState : AddonState :=
  { config := some sampleConfig
    globalOpts := { maximumThreads := 1, useGPU := 0 } }

/-- C1.  For every symbology configuration (every `SpecificConfig`, the
base record each symbology class inherits unchanged) and all integers
`mn`, `mx`: `SetLengthRange(mn, mx)` succeeds — storing `mn` as
`minimumLength` and `mx` as `maximumLength` and touching nothing else —
exactly when `mn ≥ 0 ∧ mx ≥ 0 ∧ (mn = 0 ∨ mx = 0 ∨ mx ≥ mn)`; otherwise
it throws a validation error (`std::invalid_argument`), and since the
error is raised before either field is assigned, both stored bounds keep
the values they had before the call. -/
theorem setLengthRange_succeeds_iff_valid (cfg : SpecificConfig) (mn mx : Int) :
    cfg.SetLengthRange mn mx =
      (if mn ≥ 0 ∧ mx ≥ 0 ∧ (mn = 0 ∨ mx = 0 ∨ mx ≥ mn) then
        Except.ok { cfg with minimumLength := mn, maximumLength := mx }
      else
        Except.error (if mn ≥ 0 ∧ mx ≥ 0 then
            "Maximum length cannot be smaller than minimum"
          else
            "Length must be positive number")) := by
  unfold SpecificConfig.SetLengthRange
  split_ifs <;> first | rfl | (exfalso; omega)

/-- C2.  The marshaled response document has exactly one of three shapes,
determined by the length `N` of the engine's result sequence:

* `N = 0`: `resultsCount = 0`, empty `barcodeTypeName`, empty
  `textualData`, and no other fields (the key list is exactly those
  three);
* `N = 1`: a flat document — `resultsCount = 1`, the single result's type
  name and textual data as top-level fields, and each auxiliary pair of
  `extra` promoted to a top-level field;
* `N > 1`: `resultsCount = N` and a `results` field holding the
  per-result sub-documents in sequence order, each sub-document carrying
  its own `barcodeTypeName`, `textualData` and auxiliary pairs, which are
  nested there and absent from the top level (`getField` on the top-level
  document finds neither `barcodeTypeName` nor `textualData`). -/
theorem marshalResults_three_shapes :
    (marshalResults [] =
        Json.obj [("resultsCount", Json.num 0), ("barcodeTypeName", Json.str ""),
                  ("textualData", Json.str "")]
      ∧ (marshalResults []).fieldKeys = ["resultsCount", "barcodeTypeName", "textualData"])
    ∧ (∀ r : BaseResult,
        marshalResults [r] =
          Json.obj (("resultsCount", Json.num 1)
            :: ("barcodeTypeName", Json.str r.barcodeTypeName)
            :: ("textualData", Json.str r.textualData)
            :: r.extra.map (fun p => (p.1, Json.str p.2))))
    ∧ (∀ (r₁ r₂ : BaseResult) (rest : List BaseResult),
        marshalResults (r₁ :: r₂ :: rest) =
          Json.obj [("resultsCount", Json.num (r₁ :: r₂ :: rest).length),
                    ("results", Json.arr ((r₁ :: r₂ :: rest).map marshalSingle))]
        ∧ (marshalResults (r₁ :: r₂ :: rest)).fieldKeys = ["resultsCount", "results"]
        ∧ (marshalResults (r₁ :: r₂ :: rest)).getField "barcodeTypeName" = none
        ∧ (marshalResults (r₁ :: r₂ :: rest)).getField "textualData" = none)
    ∧ (∀ r : BaseResult,
        marshalSingle r =
          Json.obj (("barcodeTypeName", Json.str r.barcodeTypeName)
            :: ("textualData", Json.str r.textualData)
            :: r.extra.map (fun p => (p.1, Json.str p.2)))) := by
  refine ⟨⟨rfl, rfl⟩, fun r => rfl, fun r₁ r₂ rest => ⟨rfl, rfl, rfl, rfl⟩, fun r => rfl⟩

/-- C6.  Default-constructed symbology configurations: `MsiConfig` has
`checksumType = Mod10`; `CodabarConfig` has `minimumLength = 4`; and
every other symbology class defaults to a disabled checksum (where the
class has a checksum field at all — for `IDDocumentConfig` this is its
`masterChecksumType`) and unconstrained, i.e. zero, length bounds. -/
theorem defaultConfigs_defaults (d : DecoderType) :
    (mkMsiConfig d).checksumType = MsiChecksumType.Mod10
    ∧ (mkCodabarConfig d).minimumLength = 4
    ∧ (mkCode11Config d).checksumType = Code11ChecksumType.Disabled
    ∧ (mkCode11Config d).minimumLength = 0 ∧ (mkCode11Config d).maximumLength = 0
    ∧ (mkCode39Config d).checksumType = Code39ChecksumType.Disabled
    ∧ (mkCode39Config d).minimumLength = 0 ∧ (mkCode39Config d).maximumLength = 0
    ∧ (mkCode25Config d).checksumType = BaseChecksumType.Disabled
    ∧ (mkCode25Config d).minimumLength = 0 ∧ (mkCode25Config d).maximumLength = 0
    ∧ (mkIATA25Config d).checksumType = BaseChecksumType.Disabled
    ∧ (mkIATA25Config d).minimumLength = 0 ∧ (mkIATA25Config d).maximumLength = 0
    ∧ (mkMatrix25Config d).checksumType = BaseChecksumType.Disabled
    ∧ (mkMatrix25Config d).minimumLength = 0 ∧ (mkMatrix25Config d).maximumLength = 0
    ∧ (mkDatalogic25Config d).checksumType = BaseChecksumType.Disabled
    ∧ (mkDatalogic25Config d).minimumLength = 0 ∧ (mkDatalogic25Config d).maximumLength = 0
    ∧ (mkCOOP25Config d).checksumType = BaseChecksumType.Disabled
    ∧ (mkCOOP25Config d).minimumLength = 0 ∧ (mkCOOP25Config d).maximumLength = 0
    ∧ (mkInterleaved25Config d).checksumType = BaseChecksumType.Disabled
    ∧ (mkInterleaved25Config d).minimumLength = 0 ∧ (mkInterleaved25Config d).maximumLength = 0
    ∧ (mkIDDocumentConfig d).masterChecksumType = BaseChecksumType.Disabled
    ∧ (mkIDDocumentConfig d).minimumLength = 0 ∧ (mkIDDocumentConfig d).maximumLength = 0
    ∧ (mkTelepenConfig d).minimumLength = 0 ∧ (mkTelepenConfig d).maximumLength = 0
    ∧ (mkPostalIMBConfig d).minimumLength = 0 ∧ (mkPostalIMBConfig d).maximumLength = 0
    ∧ (mkPostnetConfig d).minimumLength = 0 ∧ (mkPostnetConfig d).maximumLength = 0
    ∧ (mkPlanetConfig d).minimumLength = 0 ∧ (mkPlanetConfig d).maximumLength = 0
    ∧ (mkAustralianPostConfig d).minimumLength = 0 ∧ (mkAustralianPostConfig d).maximumLength = 0
    ∧ (mkRoyalMailConfig d).minimumLength = 0 ∧ (mkRoyalMailConfig d).maximumLength = 0
    ∧ (mkJapanesePostConfig d).minimumLength = 0 ∧ (mkJapanesePostConfig d).maximumLength = 0
    ∧ (mkKIXConfig d).minimumLength = 0 ∧ (mkKIXConfig d).maximumLength = 0
    ∧ (mkDotcodeConfig d).minimumLength = 0 ∧ (mkDotcodeConfig d).maximumLength = 0
    ∧ (mkCode32Config d).minimumLength = 0 ∧ (mkCode32Config d).maximumLength = 0
    ∧ (mkITF14Config d).minimumLength = 0 ∧ (mkITF14Config d).maximumLength = 0
    ∧ (mkAztecConfig d).minimumLength = 0 ∧ (mkAztecConfig d).maximumLength = 0
    ∧ (mkAztecCompactConfig d).minimumLength = 0 ∧ (mkAztecCompactConfig d).maximumLength = 0
    ∧ (mkMaxiCodeConfig d).minimumLength = 0 ∧ (mkMaxiCodeConfig d).maximumLength = 0
    ∧ (mkDatamatrixConfig d).minimumLength = 0 ∧ (mkDatamatrixConfig d).maximumLength = 0
    ∧ (mkQRConfig d).minimumLength = 0 ∧ (mkQRConfig d).maximumLength = 0
    ∧ (mkQRMicroConfig d).minimumLength = 0 ∧ (mkQRMicroConfig d).maximumLength = 0
    ∧ (mkCode128Config d).minimumLength = 0 ∧ (mkCode128Config d).maximumLength = 0
    ∧ (mkCode93Config d).minimumLength = 0 ∧ (mkCode93Config d).maximumLength = 0
    ∧ (mkUpcAConfig d).minimumLength = 0 ∧ (mkUpcAConfig d).maximumLength = 0
    ∧ (mkUpcEConfig d).minimumLength = 0 ∧ (mkUpcEConfig d).maximumLength = 0
    ∧ (mkUpcE1Config d).minimumLength = 0 ∧ (mkUpcE1Config d).maximumLength = 0
    ∧ (mkEan13Config d).minimumLength = 0 ∧ (mkEan13Config d).maximumLength = 0
    ∧ (mkEan8Config d).minimumLength = 0 ∧ (mkEan8Config d).maximumLength = 0
    ∧ (mkPDF417Config d).minimumLength = 0 ∧ (mkPDF417Config d).maximumLength = 0
    ∧ (mkPDF417MicroConfig d).minimumLength = 0 ∧ (mkPDF417MicroConfig d).maximumLength = 0
    ∧ (mkDatabar14Config d).minimumLength = 0 ∧ (mkDatabar14Config d).maximumLength = 0
    ∧ (mkDatabarLimitedConfig d).minimumLength = 0
    ∧ (mkDatabarLimitedConfig d).maximumLength = 0
    ∧ (mkDatabarExpandedConfig d).minimumLength = 0
    ∧ (mkDatabarExpandedConfig d).maximumLength = 0 := by
  repeat' apply And.intro
  all_goals rfl

/-- C7.  Every `DecoderType` enumerator has a corresponding `BarcodeType`
enumerator with the same symbology meaning — `decoderToBarcode` maps each
one to its namesake, and `barcodeToDecoder` recovers it, so the
correspondence is one-to-one — but the converse fails: `IDMRZ`,
`IDPicture` and `IDSignature` are `BarcodeType` enumerators with no
corresponding `DecoderType` (and, by the retraction, no `DecoderType`
maps onto them), so they are never independently enable/disable-able. -/
theorem decoderType_barcodeType_asymmetry :
    (∀ d : DecoderType, barcodeToDecoder (decoderToBarcode d) = some d)
    ∧ barcodeToDecoder BarcodeType.IDMRZ = none
    ∧ barcodeToDecoder BarcodeType.IDPicture = none
    ∧ barcodeToDecoder BarcodeType.IDSignature = none := by
  refine ⟨fun d => by cases d <;> rfl, rfl, rfl, rfl⟩

/-- C9.  A successful `Initialize` call always overwrites the scan
settings of the freshly stored config to fixed values — decoding speed
`Normal` (underlying value 1) and maximum-results cap 1 — and sets the
process options to thread cap 1 and GPU off; the resulting state does not
depend on the state before the call, so any speed or cap configured
before a re-initialization is discarded by it. -/
theorem initialize_overwrites_scan_settings (st : AddonState) (cfg : Config) (m : String) :
    Initialize st (InitResponse.ok cfg m) =
      ("SUCCESS: " ++ m,
       { config := some { cfg with
           decodingSpeed := DecodingSpeed.Normal.toInt, maximumResultsCount := 1 }
         globalOpts := { maximumThreads := 1, useGPU := 0 } })
    ∧ (∀ other : AddonState,
        (Initialize st (InitResponse.ok cfg m)).2 =
          (Initialize other (InitResponse.ok cfg m)).2) := by
  exact ⟨rfl, fun other => rfl⟩

/-- Helper: no action other than a successful initialize can make the
global config pointer non-null. -/
theorem stepState_config_none (st : AddonState) (a : Action)
    (hst : st.config = none) (ha : a.isSuccessfulInit = false) :
    (stepState st a).config = none := by
  cases a with
  | initOp resp =>
      cases resp with
      | err m => simpa [stepState, Initialize] using hst
      | ok cfg m => simp [Action.isSuccessfulInit] at ha
  | setEnabledDecoders codes => simp [stepState, SetEnabledDecoders, hst]
  | setDecodingSpeed speed => simp [stepState, SetDecodingSpeed, hst]
  | setRegionOfInterest l t w h => simp [stepState, SetRegionOfInterest, hst]
  | decodeImage bufLen width height rs => simp [stepState, DecodeImage, hst]

/-- Helper: through any sequence of actions none of which is a successful
initialize, the config pointer stays null. -/
theorem runActions_config_none (st : AddonState) (acts : List Action)
    (hst : st.config = none) (h : ∀ a ∈ acts, a.isSuccessfulInit = false) :
    (runActions st acts).config = none := by
  induction acts generalizing st with
  | nil => simpa [runActions] using hst
  | cons a rest ih =>
      simp only [runActions]
      exact ih _ (stepState_config_none st a hst (h a (by simp)))
        (fun b hb => h b (by simp [hb]))

/-- C4.  After any sequence of module calls in which no `initialize` call
succeeded, the global config pointer is still null, and each of
`SetEnabledDecoders`, `SetDecodingSpeed`, `SetRegionOfInterest` and
`DecodeImage`, on every argument list, fails with the distinct
not-initialized error (exactly the string `"ERROR: SDK not initialized"`,
no other error class) and changes nothing: the returned state is the
pre-call state. -/
theorem uninitialized_ops_fail (g : GlobalOptions) (acts : List Action)
    (h : ∀ a ∈ acts, a.isSuccessfulInit = false) :
    (runActions (initialState g) acts).config = none
    ∧ (∀ codes, SetEnabledDecoders (runActions (initialState g) acts) codes =
        ("ERROR: SDK not initialized", runActions (initialState g) acts))
    ∧ (∀ speed, SetDecodingSpeed (runActions (initialState g) acts) speed =
        ("ERROR: SDK not initialized", runActions (initialState g) acts))
    ∧ (∀ l t w hh, SetRegionOfInterest (runActions (initialState g) acts) l t w hh =
        ("ERROR: SDK not initialized", runActions (initialState g) acts))
    ∧ (∀ bufLen width height rs,
        DecodeImage (runActions (initialState g) acts) bufLen width height rs =
          (Except.error "ERROR: SDK not initialized", runActions (initialState g) acts)) := by
  have hnone : (runActions (initialState g) acts).config = none :=
    runActions_config_none _ _ rfl h
  refine ⟨hnone, ?_, ?_, ?_, ?_⟩ <;> intros <;>
    simp [SetEnabledDecoders, SetDecodingSpeed, SetRegionOfInterest, DecodeImage, hnone]

/-- C4 witness: after a failed initialize and a (rejected) speed call,
a further `SetDecodingSpeed` still fails with the not-initialized
error. -/
theorem uninitialized_ops_fail_witness :
    SetDecodingSpeed
        (runActions (initialState ⟨0, 0⟩)
          [Action.initOp (InitResponse.err "bad license"), Action.setDecodingSpeed 2]) 1 =
      ("ERROR: SDK not initialized",
       runActions (initialState ⟨0, 0⟩)
         [Action.initOp (InitResponse.err "bad license"), Action.setDecodingSpeed 2]) := by
  refine (uninitialized_ops_fail ⟨0, 0⟩ _ ?_).2.2.1 1
  intro a ha
  simp only [List.mem_cons, List.not_mem_nil, or_false] at ha
  rcases ha with rfl | rfl <;> rfl

/-- C5.  On an initialized registry, `SetEnabledDecoders` with a list of
integer decoder codes: if every code is a known `DecoderType` ordinal,
the call succeeds and replaces the enabled set — a `DecoderType` ends
enabled exactly when some code of the list denotes it, regardless of the
prior flags — and if any code is unknown/out-of-range the whole call is
rejected with the validation error and the state (in particular every
enabled flag) is exactly the pre-call state, with no partial
application.  The rejection/replacement semantics of the SDK-side
`Config::SetEnabledDecoders` is modelled from the spec (see
`Config.setEnabledDecodersSdk`). -/
theorem setEnabledDecoders_atomic_replace (st : AddonState) (cfg : Config)
    (hcfg : st.config = some cfg) (codes : List Int) :
    (codes.all (fun c => (DecoderType.ofInt c).isSome) = true →
      SetEnabledDecoders st codes =
        ("SUCCESS: Enabled " ++ toString codes.length ++ " decoders",
         { st with config := some { cfg with
             enabledFlags := fun d => codes.any (fun c => DecoderType.ofInt c == some d) } })
      ∧ ∀ d : DecoderType,
          (codes.any (fun c => DecoderType.ofInt c == some d) = true
            ↔ ∃ c ∈ codes, DecoderType.ofInt c = some d))
    ∧ (codes.all (fun c => (DecoderType.ofInt c).isSome) = false →
        SetEnabledDecoders st codes = ("ERROR: Invalid decoder type", st)) := by
  constructor
  · intro hall
    constructor
    · simp [SetEnabledDecoders, hcfg, Config.setEnabledDecodersSdk, hall]
    · intro d
      simp [List.any_eq_true]
  · intro hall
    simp [SetEnabledDecoders, hcfg, Config.setEnabledDecodersSdk, hall]

/-- C5 witness: enabling Aztec (0) and QR (2) succeeds; an unknown code
99 is rejected atomically. -/
theorem setEnabledDecoders_atomic_replace_witness :
    ((SetEnabledDecoders sampleInitState [0, 2]).1 = "SUCCESS: Enabled 2 decoders"
      ∧ ([(0 : Int), 2].any (fun c => DecoderType.ofInt c == some DecoderType.QR) = true
          ↔ ∃ c ∈ [(0 : Int), 2], DecoderType.ofInt c = some DecoderType.QR))
    ∧ SetEnabledDecoders sampleInitState [0, 99] =
        ("ERROR: Invalid decoder type", sampleInitState) := by
  constructor
  · have h := (setEnabledDecoders_atomic_replace sampleInitState sampleConfig rfl
      [0, 2]).1 (by decide)
    exact ⟨by rw [h.1]; rfl, h.2 DecoderType.QR⟩
  · exact (setEnabledDecoders_atomic_replace sampleInitState sampleConfig rfl
      [0, 99]).2 (by decide)

/-- C3 counterexample: the claim quantifies over all `width`, `height`,
but the guard computes `width * height` as a C++ `int`.  At
`width = height = 65536` the 32-bit product wraps to 0, so a buffer of
length 0 — far smaller than the true product `65536 * 65536` — passes the
guard and the call proceeds to the engine, where the claim says it must
fail with the buffer-too-small error. -/
theorem decodeImage_guard_overflow_cex :
    (0 : Int) < 65536 * 65536
    ∧ (DecodeImage sampleInitState 0 65536 65536 []).1 = Except.ok (marshalResults []) := by
  exact ⟨by norm_num, rfl⟩

/-- C3 (amended).  On an initialized registry, for nonnegative dimensions
whose product does not exceed `2 ^ 31 - 1` (no 32-bit overflow in the
guard), `decodeImage` fails with the buffer-too-small validation error,
without invoking the engine, exactly when the buffer length is strictly
less than `width * height`; with a buffer of length `width * height` or
greater it proceeds to the engine call and marshals whatever the engine
returns (excess bytes beyond `width * height` do not matter: only the
comparison with the length is performed). -/
theorem decodeImage_guard_exact (st : AddonState) (cfg : Config)
    (hcfg : st.config = some cfg) (width height : Int)
    (hw : 0 ≤ width) (hh : 0 ≤ height) (hsmall : width * height ≤ 2 ^ 31 - 1)
    (bufLen : Nat) (rs : List BaseResult) :
    DecodeImage st bufLen width height rs =
      ((if (bufLen : Int) < width * height then
          Except.error "ERROR: Buffer too small for specified dimensions"
        else Except.ok (marshalResults rs)), st) := by
  have hprod : 0 ≤ width * height := mul_nonneg hw hh
  have hwrap : toSizeT (wrap32 (width * height)) = (width * height).toNat := by
    unfold toSizeT wrap32
    omega
  simp only [DecodeImage, hcfg]
  rw [hwrap]
  split_ifs <;> first | rfl | (exfalso; omega)

/-- C3 witness: a 2×2 image with a 3-byte buffer is rejected as too
small. -/
theorem decodeImage_guard_exact_witness :
    DecodeImage sampleInitState 3 2 2 [] =
      (Except.error "ERROR: Buffer too small for specified dimensions", sampleInitState) := by
  rw [decodeImage_guard_exact sampleInitState sampleConfig rfl 2 2
    (by norm_num) (by norm_num) (by norm_num) 3 []]
  norm_num

/-- C8 counterexample: the claim says an integer outside 0–3 is not
stored as a valid speed, but `SetDecodingSpeed` performs no validation at
all: at speed 7 (outside 0–3) the call reports success and stores 7. -/
theorem setDecodingSpeed_no_validation_cex :
    (SetDecodingSpeed sampleInitState 7).1 = "SUCCESS: Decoding speed set to 7"
    ∧ ((SetDecodingSpeed sampleInitState 7).2.config.map Config.decodingSpeed) = some 7
    ∧ (3 : Int) < 7 := by
  refine ⟨rfl, rfl, by norm_num⟩

/-- C8 (amended).  On an initialized registry, `setDecodingSpeed` stores
`static_cast<DecodingSpeed>(speed)` — the raw integer, whose underlying
value the cast preserves — and reports success, for every integer: no
range validation is performed, so integers 0–3 store the corresponding
enumerated speed (0 = Fast, 1 = Normal, 2 = Slow, 3 = Rigorous) while an
integer outside 0–3 is stored just the same, as an out-of-range
underlying value, with the call still reporting success. -/
theorem setDecodingSpeed_stores_raw (st : AddonState) (cfg : Config)
    (hcfg : st.config = some cfg) (speed : Int) :
    SetDecodingSpeed st speed =
      ("SUCCESS: Decoding speed set to " ++ toString speed,
       { st with config := some { cfg with decodingSpeed := speed } }) := by
  simp [SetDecodingSpeed, hcfg]

/-- C8 witness: setting speed 2 (Slow) on the sample state. -/
theorem setDecodingSpeed_stores_raw_witness :
    SetDecodingSpeed sampleInitState 2 =
      ("SUCCESS: Decoding speed set to " ++ toString (2 : Int),
       { sampleInitState with config := some { sampleConfig with decodingSpeed := 2 } }) :=
  setDecodingSpeed_stores_raw sampleInitState sampleConfig rfl 2

/-- C10 counterexample: the claim says that whenever exactly one of
`width`, `height` is negative the call always fails and negative
dimensions never reach the engine; but at `width = -65536`,
`height = 65536` the 32-bit product `-2 ^ 32` wraps to 0, the guard
compares the buffer length with 0, and the call proceeds to the engine
with a negative width. -/
theorem decodeImage_wrap_negative_cex :
    ((-65536 : Int) < 0 ∧ (0 : Int) < 65536)
    ∧ (DecodeImage sampleInitState 0 (-65536) 65536 []).1 =
        Except.ok (marshalResults []) := by
  exact ⟨⟨by norm_num, by norm_num⟩, rfl⟩

/-- C10 (amended).  The guard computes `width * height` in wrapped 32-bit
signed arithmetic and converts the result to `size_t` (modulo `2 ^ 64`).
Whenever the true product is negative and does not wrap (it is at least
`-2 ^ 31`) — in particular when exactly one dimension is negative and the
product stays in 32-bit range — the conversion yields a value of at least
`2 ^ 64 - 2 ^ 31`, so the call fails with the buffer-too-small error for
every buffer length below `2 ^ 64 - 2 ^ 31` and such negative dimensions
never reach the engine.  When the true product exceeds `2 ^ 31 - 1` the
comparison is performed on the wrapped 32-bit product, which is strictly
smaller than the true product (so it is not the true product); with
wrap-around a negative dimension can in fact reach the engine, as the
counterexample shows. -/
theorem decodeImage_wrap_behaviour :
    (∀ (st : AddonState) (cfg : Config), st.config = some cfg →
      ∀ (width height : Int), width * height < 0 → -(2 ^ 31) ≤ width * height →
      ∀ (bufLen : Nat), (bufLen : Int) < 2 ^ 64 - 2 ^ 31 →
      ∀ rs, DecodeImage st bufLen width height rs =
        (Except.error "ERROR: Buffer too small for specified dimensions", st))
    ∧ (∀ width height : Int, 2 ^ 31 - 1 < width * height →
        wrap32 (width * height) < width * height) := by
  constructor
  · intro st cfg hcfg width height hneg hge bufLen hbuf rs
    have hlt : bufLen < toSizeT (wrap32 (width * height)) := by
      unfold toSizeT wrap32
      omega
    simp [DecodeImage, hcfg, hlt]
  · intro width height hgt
    unfold wrap32
    omega

/-- C10 witness: a 1×(-1) image rejects a 0-byte buffer (non-wrapping
negative product), and the wrapped product at 65536×65536 is smaller
than the true product. -/
theorem decodeImage_wrap_behaviour_witness :
    DecodeImage sampleInitState 0 (-1) 1 [] =
      (Except.error "ERROR: Buffer too small for specified dimensions", sampleInitState)
    ∧ wrap32 (65536 * 65536) < 65536 * 65536 := by
  constructor
  · exact decodeImage_wrap_behaviour.1 sampleInitState sampleConfig rfl (-1) 1
      (by norm_num) (by norm_num) 0 (by norm_num) []
  · exact decodeImage_wrap_behaviour.2 65536 65536 (by norm_num)

end Barkoder
